import Mathlib

/-!
Shallow embedding of `src/main.py`, a FastAPI application consisting of
request-validation and echo endpoints.  Python handlers become total Lean
functions; handlers that can raise `HTTPException` return `Except HTTPError α`;
optional parameters (Python `None` defaults) become `Option` arguments;
Python `float` prices become `ℚ`; response dictionaries become structures
whose `Option`-typed fields model the presence or absence of a key.
Python truthiness (`if q:`) is modelled per type: `None` is falsy, the empty
string is falsy, `0` is falsy, the empty list is falsy, and a model object
(`Item`, `BaseUser`, `CommonQueryParams`) is always truthy when present.
-/

/-- A raised `HTTPException`: status code, detail message, extra headers. -/
structure HTTPError where
  status_code : Nat
  detail : String
  headers : List (String × String) := []
deriving DecidableEq, Repr

/-- The HTTP status of a handler outcome: 200 on success, else the error's code. -/
def statusOf {α : Type} : Except HTTPError α → Nat
  | .ok _ => 200
  | .error e => e.status_code

/-- `class Image` (main.py lines 41-43). -/
structure Image where
  url : String
  name : String
deriving DecidableEq, Repr

/-- `class Item` (main.py lines 46-52); `tags: set[str]` is modelled as a list. -/
structure Item where
  name : String
  description : Option String := none
  price : ℚ
  tax : Option ℚ := none
  images : Option (List Image) := none
  tags : List String := []
deriving DecidableEq, Repr

/-- `class BaseUser` (main.py lines 28-31). -/
structure BaseUser where
  username : String
  email : String
  full_name : Option String := none
deriving DecidableEq, Repr

/-- `class UserIn(BaseUser)` (main.py lines 80-81): BaseUser plus a password. -/
structure UserIn where
  username : String
  email : String
  full_name : Option String := none
  password : String
deriving DecidableEq, Repr

/-- `class UserInDB(User)` (main.py lines 73-77 and 84-85). -/
structure UserInDB where
  username : String
  email : Option String := none
  full_name : Option String := none
  disabled : Option Bool := none
  hashed_password : String
deriving DecidableEq, Repr

/-- The field names serialized for a `BaseUser` response. -/
def BaseUser.keys : List String := ["username", "email", "full_name"]

/-- The field names serialized for a `UserInDB` response (no response model
filters it, so every field of the class appears, `hashed_password` included). -/
def UserInDB.keys : List String :=
  ["username", "email", "full_name", "disabled", "hashed_password"]

/-- `class Offer` (main.py lines 61-65). -/
structure Offer where
  name : String
  description : Option String := none
  price : ℚ
  items : List Item
deriving DecidableEq, Repr

/-- `class ModelName(Enum)` (main.py lines 55-58). -/
inductive ModelName
  | alexnet
  | resnet
  | lenet
deriving DecidableEq, Repr

/-- The string value of each `ModelName` enum member. -/
def ModelName.value : ModelName → String
  | .alexnet => "alexnet"
  | .resnet => "resnet"
  | .lenet => "lenet"

/-- Enum validation of a raw path string: string-to-member lookup over the
closed set declared at main.py lines 55-58; any other string fails. -/
def ModelName.ofString (s : String) : Option ModelName :=
  if s = "alexnet" then some .alexnet
  else if s = "resnet" then some .resnet
  else if s = "lenet" then some .lenet
  else none

/-- `class CommonQueryParams` (main.py lines 34-38). -/
structure CommonQueryParams where
  q : Option String := none
  skip : Int := 0
  limit : Int := 100
deriving DecidableEq, Repr

/-- One record of `fake_items_db` (main.py line 9). -/
structure ItemRecord where
  item_name : String
deriving DecidableEq, Repr

/-- `fake_items_db` (main.py line 9). -/
def fake_items_db : List ItemRecord := [⟨"Foo"⟩, ⟨"Bar"⟩, ⟨"Baz"⟩]

/-- The `"johndoe"` record of `fake_users_db` (main.py lines 11-17). -/
def johndoe_record : UserInDB :=
  { username := "johndoe"
    full_name := some "John Doe"
    email := some "johndoe@example.com"
    hashed_password := "fakehashedsecret"
    disabled := some false }

/-- The `"alice"` record of `fake_users_db` (main.py lines 18-24). -/
def alice_record : UserInDB :=
  { username := "alice"
    full_name := some "Alice Wonderson"
    email := some "alice@example.com"
    hashed_password := "fakehashedsecret2"
    disabled := some true }

/-- `fake_users_db` (main.py lines 10-25), as an association list. -/
def fake_users_db : List (String × UserInDB) :=
  [("johndoe", johndoe_record), ("alice", alice_record)]

/-- `get_user(db, username)` (main.py lines 126-129): dictionary lookup
returning the record when the key is present, `None` otherwise. -/
def get_user (db : List (String × UserInDB)) (username : String) : Option UserInDB :=
  (db.find? (fun p => p.1 == username)).map Prod.snd

/-- `fake_hash_password(password)` (main.py lines 105-106). -/
def fake_hash_password (password : String) : String :=
  "fakehashed" ++ password

/-- `fake_decode_token(token)` (main.py lines 98-102). -/
def fake_decode_token (token : String) : Option UserInDB :=
  get_user fake_users_db token

/-- `get_current_user(token)` (main.py lines 109-117): 401 with a
`WWW-Authenticate: Bearer` header when the token decodes to no user. -/
def get_current_user (token : String) : Except HTTPError UserInDB :=
  match fake_decode_token token with
  | none =>
      .error ⟨401, "Invalid authentication credentials", [("WWW-Authenticate", "Bearer")]⟩
  | some user => .ok user

/-- `get_current_active_user(current_user)` (main.py lines 120-123), composed
with its `get_current_user` dependency: 400 when `disabled` is truthy. -/
def get_current_active_user (token : String) : Except HTTPError UserInDB :=
  match get_current_user token with
  | .error e => .error e
  | .ok user =>
      if user.disabled = some true then .error ⟨400, "Inactive user", []⟩
      else .ok user

/-- `read_users_me(current_user)` (main.py lines 263-265): returns the resolved
current user object unchanged; no response model filters its fields. -/
def read_users_me (token : String) : Except HTTPError UserInDB :=
  get_current_active_user token

/-- The success body of `login` (main.py line 184). -/
structure TokenResp where
  access_token : String
  token_type : String
deriving DecidableEq, Repr

/-- `login(form_data)` (main.py lines 174-184): look the username up in
`fake_users_db`; 400 `"Incorrect username or password"` when absent or when
`fake_hash_password(password)` differs from the stored hash; otherwise
`{access_token: user.username, token_type: "bearer"}`. -/
def login (username password : String) : Except HTTPError TokenResp :=
  match get_user fake_users_db username with
  | none => .error ⟨400, "Incorrect username or password", []⟩
  | some user =>
      if fake_hash_password password = user.hashed_password then
        .ok ⟨user.username, "bearer"⟩
      else
        .error ⟨400, "Incorrect username or password", []⟩

/-- The response dictionary of `change_item`; a `none` field means the key is
absent from the dictionary. -/
structure ChangeItemResp where
  item_id : Int
  q : Option String := none
  item : Option Item := none
  user : Option BaseUser := none
  importance : Option Int := none
deriving DecidableEq, Repr

/-- `change_item(item_id, item, user, importance, q)` (main.py lines 135-152):
starts from `{"item_id": item_id}` and merges each of `q`, `item`, `user`,
`importance` exactly when the Python value is truthy (`""` and `0` are falsy;
a model object is truthy whenever it is not `None`). -/
def change_item (item_id : Int) (item : Option Item) (user : Option BaseUser)
    (importance : Option Int) (q : Option String) : ChangeItemResp :=
  { item_id := item_id
    q := match q with
      | some s => if s ≠ "" then some s else none
      | none => none
    item := item
    user := user
    importance := match importance with
      | some n => if n ≠ 0 then some n else none
      | none => none }

/-- The dictionary returned by `create_item`; `price_with_tax = none` means the
key is absent. -/
structure CreateItemResp where
  name : String
  description : Option String := none
  price : ℚ
  tax : Option ℚ := none
  images : Option (List Image) := none
  tags : List String := []
  price_with_tax : Option ℚ := none
deriving DecidableEq, Repr

/-- `create_item(item)` (main.py lines 155-161): the item's fields as a
dictionary, plus `price_with_tax = price + tax` when `item.tax` is truthy. -/
def create_item (item : Item) : CreateItemResp :=
  { name := item.name
    description := item.description
    price := item.price
    tax := item.tax
    images := item.images
    tags := item.tags
    price_with_tax := match item.tax with
      | some t => if t ≠ 0 then some (item.price + t) else none
      | none => none }

/-- `create_offer(offer)` (main.py lines 164-166): returns the offer unchanged. -/
def create_offer (offer : Offer) : Offer := offer

/-- `create_user(user)` (main.py lines 169-171): returns the submitted user,
filtered by the declared `-> BaseUser` response model, which keeps only
`username`, `email` and `full_name` (the spec: the response model strips the
password and hashed fields). -/
def create_user (user : UserIn) : BaseUser :=
  { username := user.username
    email := user.email
    full_name := user.full_name }

/-- The response dictionary of `get_model`. -/
structure GetModelResp where
  model_name : ModelName
  message : String
deriving DecidableEq, Repr

/-- `get_model(model_name)` (main.py lines 187-195): three-way branch on the
enum member, always echoing `model_name`. -/
def get_model (model_name : ModelName) : GetModelResp :=
  if model_name = .alexnet then
    ⟨model_name, "Deep Learning FTW!"⟩
  else if model_name.value = "lenet" then
    ⟨model_name, "LeCNN all the images"⟩
  else
    ⟨model_name, "Have some residuals"⟩

/-- The success dictionary of `read_item`; a `none` field means the key is
absent. -/
structure ReadItemResp where
  item_id : Int
  q : Option String := none
  description : Option String := none
deriving DecidableEq, Repr

/-- The body of `read_item` (main.py lines 211-227), after path validation:
403 with an `X-Error` header for item 999; otherwise `item_id`, plus `q` when
truthy, plus a fixed description unless `short`. -/
def read_item (item_id : Int) (q : Option String) (short : Bool) :
    Except HTTPError ReadItemResp :=
  if item_id = 999 then
    .error ⟨403, "Item 999 forbidden", [("X-Error", "There goes my error")]⟩
  else
    .ok { item_id := item_id
          q := match q with
            | some s => if s ≠ "" then some s else none
            | none => none
          description := if !short then
              some "This is an amazing item that has a long description"
            else none }

/-- The `GET /items/{item_id}` endpoint: the declared path constraint
`Path(gt=1, le=1000)` (main.py line 212) is checked first (a violation is a
422 validation failure, per the spec's validator semantics), then the handler
body runs. -/
def read_item_endpoint (item_id : Int) (q : Option String) (short : Bool) :
    Except HTTPError ReadItemResp :=
  if 1 < item_id ∧ item_id ≤ 1000 then
    read_item item_id q short
  else
    .error ⟨422, "validation error", []⟩

/-- One slice bound under Python semantics: a negative index counts from the
end (clamped below at 0), a nonnegative index is clamped above at the length. -/
def pySliceBound (n : Nat) (i : Int) : Nat :=
  if i < 0 then (n + i).toNat else min i.toNat n

/-- Python list slicing `l[a:b]`: out-of-range bounds are clamped, never an
error; a negative bound counts from the end of the list. -/
def pySlice {α : Type} (l : List α) (a b : Int) : List α :=
  let a' := pySliceBound l.length a
  let b' := pySliceBound l.length b
  (l.drop a').take (b' - a')

/-- The response dictionary of `read_items`; a `none` field means the key is
absent. -/
structure ReadItemsResp where
  items : List ItemRecord
  q : Option String := none
  z : Option (List String) := none
  commons : Option CommonQueryParams := none
deriving DecidableEq, Repr

/-- `read_items(skip, limit, q, z, commons)` (main.py lines 230-255):
`fake_items_db[skip : skip + limit]`, plus `q` / `z` / `commons` merged exactly
when truthy (`""` and `[]` are falsy; a `CommonQueryParams` object is truthy). -/
def read_items (skip limit : Int) (q : Option String) (z : Option (List String))
    (commons : Option CommonQueryParams) : ReadItemsResp :=
  { items := pySlice fake_items_db skip (skip + limit)
    q := match q with
      | some s => if s ≠ "" then some s else none
      | none => none
    z := match z with
      | some zs => if zs ≠ [] then some zs else none
      | none => none
    commons := commons }

/-- `get_model` of a raw path string: enum validation then the handler. -/
def get_model_endpoint (s : String) : Option GetModelResp :=
  (ModelName.ofString s).map get_model

/-- Helper: on the fixed two-record user directory, a successful lookup returns
a record whose `username` field equals the looked-up key. -/
theorem get_user_username_eq (username : String) (u : UserInDB)
    (hu : get_user fake_users_db username = some u) : u.username = username := by
  by_cases h1 : username = "johndoe"
  · subst h1
    rw [show get_user fake_users_db "johndoe" = some johndoe_record from rfl,
      Option.some_inj] at hu
    rw [← hu]
    rfl
  · by_cases h2 : username = "alice"
    · subst h2
      rw [show get_user fake_users_db "alice" = some alice_record from rfl,
        Option.some_inj] at hu
      rw [← hu]
      rfl
    · exfalso
      have hnone : get_user fake_users_db username = none := by
        have hf : List.find? (fun p => p.1 == username) fake_users_db = none := by
          rw [List.find?_eq_none]
          intro x hx
          simp only [fake_users_db, List.mem_cons, List.not_mem_nil, or_false] at hx
          rcases hx with rfl | rfl
          · simp only [beq_iff_eq]
            exact fun h => h1 h.symm
          · simp only [beq_iff_eq]
            exact fun h => h2 h.symm
        simp [get_user, hf]
      rw [hnone] at hu
      exact Option.noConfusion hu

/-- C1 counterexample: 999 lies in [2,1000], yet `read_item` does not return a
200 response there; it fails with a 403, so the universal 200 claim over the
whole interval [2,1000] is false as stated. -/
theorem C1_universal_200_counterexample :
    ((2 : Int) ≤ 999 ∧ (999 : Int) ≤ 1000) ∧
    statusOf (read_item_endpoint 999 none false) = 403 ∧
    statusOf (read_item_endpoint 999 none false) ≠ 200 := by
  refine ⟨by decide, rfl, by decide⟩

/-- C1 (amended): for every integer item_id in [2,1000] other than 999,
`read_item` returns a 200 response; for item_id ≤ 1 or > 1000 validation fails
with a 422; and for item_id = 999 it fails with a 403 carrying the header
`X-Error: "There goes my error"`. -/
theorem C1_read_item_status (item_id : Int) (q : Option String) (short : Bool) :
    statusOf (read_item_endpoint item_id q short) =
      (if item_id ≤ 1 ∨ 1000 < item_id then 422
       else if item_id = 999 then 403
       else 200) ∧
    read_item_endpoint 999 q short =
      .error ⟨403, "Item 999 forbidden", [("X-Error", "There goes my error")]⟩ := by
  constructor
  · by_cases hv : 1 < item_id ∧ item_id ≤ 1000
    · by_cases h9 : item_id = 999
      · subst h9; rfl
      · unfold read_item_endpoint read_item
        rw [if_pos hv, if_neg h9,
          if_neg (show ¬(item_id ≤ 1 ∨ 1000 < item_id) by omega), if_neg h9]
        rfl
    · unfold read_item_endpoint
      rw [if_neg hv,
        if_pos (show item_id ≤ 1 ∨ 1000 < item_id by omega)]
      rfl
  · rfl

/-- C2: `change_item` returns a mapping containing `item_id`, and merges each
of `q`, `item`, `user`, `importance` exactly when that argument is truthy; in
particular a supplied importance of 0 leaves the `importance` key absent. -/
theorem C2_change_item_truthy_merge (item_id : Int) (item : Option Item)
    (user : Option BaseUser) (importance : Option Int) (q : Option String)
    (s : String) (n : Int) :
    (change_item item_id item user importance q).item_id = item_id ∧
    (change_item item_id item user importance q).item = item ∧
    (change_item item_id item user importance q).user = user ∧
    ((change_item item_id item user importance q).q.isSome ↔
      ∃ t, q = some t ∧ t ≠ "") ∧
    ((change_item item_id item user importance q).importance.isSome ↔
      ∃ m, importance = some m ∧ m ≠ 0) ∧
    (change_item item_id item user importance (some s)).q =
      (if s = "" then none else some s) ∧
    (change_item item_id item user (some n) q).importance =
      (if n = 0 then none else some n) ∧
    (change_item item_id item user (some 0) q).importance = none := by
  refine ⟨rfl, rfl, rfl, ?_, ?_, ?_, ?_, rfl⟩
  · cases q with
    | none => simp [change_item]
    | some t => by_cases h : t = "" <;> simp [change_item, h]
  · cases importance with
    | none => simp [change_item]
    | some m => by_cases h : m = 0 <;> simp [change_item, h]
  · by_cases h : s = "" <;> simp [change_item, h]
  · by_cases h : n = 0 <;> simp [change_item, h]

/-- C3 counterexample: the claim extends to every handler, but `read_users_me`
carries no response model, so the token `"johndoe"` yields the stored
`UserInDB` record whose serialized fields include `hashed_password`. -/
theorem C3_hashed_password_leak_counterexample :
    read_users_me "johndoe" = .ok johndoe_record ∧
    "hashed_password" ∈ UserInDB.keys ∧
    johndoe_record.hashed_password = "fakehashedsecret" := by
  refine ⟨rfl, by decide, rfl⟩

/-- C3 (amended): for every UserIn input, the response of `create_user`
contains only the keys username, email and full_name — in particular neither
`password` nor `hashed_password` — but this does not extend to every handler:
`read_users_me` returns the stored record including `hashed_password`. -/
theorem C3_create_user_strips_password (user : UserIn) :
    create_user user =
      { username := user.username, email := user.email,
        full_name := user.full_name } ∧
    BaseUser.keys = ["username", "email", "full_name"] ∧
    "password" ∉ BaseUser.keys ∧
    "hashed_password" ∉ BaseUser.keys :=
  ⟨rfl, rfl, by decide, by decide⟩

/-- C4: `login` fails with a 400 error `"Incorrect username or password"` when
the username is absent from the fixed user directory or when
`"fakehashed" + password` differs from the stored hash, and otherwise returns
exactly `{access_token: username, token_type: "bearer"}`. -/
theorem C4_login_spec (username password : String) :
    (get_user fake_users_db username = none →
      login username password = .error ⟨400, "Incorrect username or password", []⟩) ∧
    (∀ u, get_user fake_users_db username = some u →
      fake_hash_password password ≠ u.hashed_password →
      login username password = .error ⟨400, "Incorrect username or password", []⟩) ∧
    (∀ u, get_user fake_users_db username = some u →
      fake_hash_password password = u.hashed_password →
      login username password = .ok ⟨username, "bearer"⟩) := by
  refine ⟨?_, ?_, ?_⟩
  · intro h
    simp [login, h]
  · intro u hu hne
    simp [login, hu, hne]
  · intro u hu he
    have huser : u.username = username := get_user_username_eq username u hu
    simp [login, hu, he, huser]

/-- C4 witness: the documented concrete instances — a correct johndoe login
succeeds with the bearer token, an unknown user and a wrong password fail. -/
theorem C4_login_spec_witness :
    login "johndoe" "secret" = .ok ⟨"johndoe", "bearer"⟩ ∧
    login "nobody" "secret" = .error ⟨400, "Incorrect username or password", []⟩ ∧
    login "johndoe" "wrong" = .error ⟨400, "Incorrect username or password", []⟩ :=
  ⟨(C4_login_spec "johndoe" "secret").2.2 johndoe_record rfl rfl,
   (C4_login_spec "nobody" "secret").1 rfl,
   (C4_login_spec "johndoe" "wrong").2.1 johndoe_record rfl (by decide)⟩

/-- C5: `read_items` returns the Python slice `[skip : skip+limit]` of the
fixed 3-element seed list — always a sub-sequence of the seed list of length
at most 3, never an error — and on the documented inputs: skip=0, limit=10
yields all 3 items, skip=1, limit=1 yields exactly the `"Bar"` record, and
skip=5, limit=5 yields the empty sequence. -/
theorem C5_read_items_slice (skip limit : Int) (q : Option String)
    (z : Option (List String)) (commons : Option CommonQueryParams) :
    List.Sublist (read_items skip limit q z commons).items fake_items_db ∧
    (read_items skip limit q z commons).items.length ≤ 3 ∧
    (read_items 0 10 q z commons).items = fake_items_db ∧
    (read_items 1 1 q z commons).items = [⟨"Bar"⟩] ∧
    (read_items 5 5 q z commons).items = [] := by
  have hsub : List.Sublist (pySlice fake_items_db skip (skip + limit)) fake_items_db := by
    unfold pySlice
    exact (List.take_sublist _ _).trans (List.drop_sublist _ _)
  exact ⟨hsub, by simpa using hsub.length_le, rfl, rfl, rfl⟩

/-- C6: `get_model` echoes `model_name` and returns the message
"Deep Learning FTW!" for alexnet, "LeCNN all the images" for lenet and
"Have some residuals" for resnet; any string outside the enum's three values
fails enum validation. -/
theorem C6_get_model_messages (m : ModelName) (s : String) :
    (get_model m).model_name = m ∧
    get_model .alexnet = ⟨.alexnet, "Deep Learning FTW!"⟩ ∧
    get_model .lenet = ⟨.lenet, "LeCNN all the images"⟩ ∧
    get_model .resnet = ⟨.resnet, "Have some residuals"⟩ ∧
    ((ModelName.ofString s).isSome ↔
      s = "alexnet" ∨ s = "resnet" ∨ s = "lenet") ∧
    ((ModelName.ofString s).isSome ↔ (get_model_endpoint s).isSome) := by
  refine ⟨?_, rfl, rfl, rfl, ?_, ?_⟩
  · cases m <;> rfl
  · unfold ModelName.ofString
    split_ifs <;> simp [*]
  · simp [get_model_endpoint]

/-- C7: `create_item` returns the item's fields; `price_with_tax`, equal to
`price + tax`, is present exactly when `tax` is present and non-zero; the
documented example name="Foo", price=10, tax=2 yields 12, and an absent tax
omits the key. -/
theorem C7_create_item_price_with_tax (item : Item) :
    (create_item item).name = item.name ∧
    (create_item item).description = item.description ∧
    (create_item item).price = item.price ∧
    (create_item item).tax = item.tax ∧
    (create_item item).images = item.images ∧
    (create_item item).tags = item.tags ∧
    ((create_item item).price_with_tax.isSome ↔
      ∃ t, item.tax = some t ∧ t ≠ 0) ∧
    (∀ t, item.tax = some t → t ≠ 0 →
      (create_item item).price_with_tax = some (item.price + t)) ∧
    (create_item { name := "Foo", price := 10, tax := some 2 }).price_with_tax =
      some 12 ∧
    (create_item { name := "Foo", price := 10 }).price_with_tax = none := by
  refine ⟨rfl, rfl, rfl, rfl, rfl, rfl, ?_, ?_, by norm_num [create_item], rfl⟩
  · cases h : item.tax with
    | none => simp [create_item, h]
    | some t => by_cases ht : t = 0 <;> simp [create_item, h, ht]
  · intro t ht htne
    simp [create_item, ht, htne]

/-- C7 witness: the theorem applied at the documented item "Foo" with price 10
and tax 2, whose hypotheses hold there, giving price_with_tax = 10 + 2. -/
theorem C7_create_item_witness :
    (create_item { name := "Foo", price := 10, tax := some 2 }).price_with_tax =
      some ((10 : ℚ) + 2) :=
  (C7_create_item_price_with_tax
      { name := "Foo", price := 10, tax := some 2 }).2.2.2.2.2.2.2.1
    2 rfl (by decide)

/-- C8: `create_offer` returns its input offer unchanged — a round-trip
identity adding, removing and altering nothing. -/
theorem C8_create_offer_roundtrip (offer : Offer) :
    create_offer offer = offer ∧
    (create_offer offer).name = offer.name ∧
    (create_offer offer).description = offer.description ∧
    (create_offer offer).price = offer.price ∧
    (create_offer offer).items = offer.items :=
  ⟨rfl, rfl, rfl, rfl, rfl⟩

/-- C9: `read_items` accepts a negative skip with no validation, and the slice
follows Python negative-index semantics: skip = -1, limit = 10 yields exactly
the last seed record `Baz` — neither the whole list nor the empty list. -/
theorem C9_negative_skip_python_semantics :
    (read_items (-1) 10 none (some ["foo", "bar"]) none).items = [⟨"Baz"⟩] ∧
    (read_items (-1) 10 none (some ["foo", "bar"]) none).items ≠ fake_items_db ∧
    (read_items (-1) 10 none (some ["foo", "bar"]) none).items ≠ [] :=
  ⟨rfl, by decide, by decide⟩

/-- C10: the falsy-value suppression extends beyond `change_item`: `read_item`
with q = "" produces no `q` key in its success body, and `read_items` with
q = "" or z = [] leaves the corresponding keys absent even though the
parameters were supplied. -/
theorem C10_falsy_suppression (item_id : Int) (short : Bool) (skip limit : Int)
    (q : Option String) (z : Option (List String))
    (commons : Option CommonQueryParams) :
    (∀ r, read_item item_id (some "") short = .ok r → r.q = none) ∧
    (read_items skip limit (some "") z commons).q = none ∧
    (read_items skip limit q (some []) commons).z = none := by
  refine ⟨?_, rfl, rfl⟩
  · intro r hr
    unfold read_item at hr
    split at hr
    · exact Except.noConfusion hr
    · cases hr
      rfl

/-- C10 witness: the theorem applied at item_id = 5, short = false, where the
success hypothesis holds by computation and the returned body has no q key. -/
theorem C10_falsy_suppression_witness :
    read_item 5 (some "") false =
      .ok { item_id := 5,
            description := some "This is an amazing item that has a long description" } ∧
    (({ item_id := 5,
        description := some "This is an amazing item that has a long description" } :
      ReadItemResp)).q = none :=
  ⟨rfl,
   (C10_falsy_suppression 5 false 0 10 none none none).1
     { item_id := 5,
       description := some "This is an amazing item that has a long description" }
     rfl⟩
